import Mathlib

/-!
Verification of the Wasabi S3 MCP server (src/src/index.ts) against its
natural-language specification.

The file shallowly embeds the tool-dispatch layer of the server: the
`ListToolsRequestSchema` handler (tool enumeration) and the
`CallToolRequestSchema` handler (tool execution), together with the data
they exchange with the AWS S3 SDK client (modelled as an abstract
`Gateway` whose operations may succeed or fail).  The session-transport
layer described by the spec is absent from the source under src/ (the
source is the stdio variant); it is modelled from the spec where a claim
needs it, and the model is marked as such.
-/

namespace Wasabi

/-! ## Error codes (from @modelcontextprotocol/sdk types.js `ErrorCode`) -/

/-- JSON-RPC error codes of the MCP SDK (`ErrorCode` in types.js).
The SDK has no NotFound member. -/
inductive ErrorCode where
  | connectionClosed
  | requestTimeout
  | parseError
  | invalidRequest
  | methodNotFound
  | invalidParams
  | internalError
deriving DecidableEq

/-- Numeric JSON-RPC code of an `ErrorCode`, as it is rendered into the
`MCP error ...` message template by the SDK. -/
def ErrorCode.numStr : ErrorCode → String
  | .connectionClosed => "-32000"
  | .requestTimeout => "-32001"
  | .parseError => "-32700"
  | .invalidRequest => "-32600"
  | .methodNotFound => "-32601"
  | .invalidParams => "-32602"
  | .internalError => "-32603"

/-- Modelled from the spec: the error taxonomy of spec section 7,
which (unlike the SDK) also has a NotFound kind. -/
inductive SpecErrKind where
  | InvalidParams
  | MethodNotFound
  | NotFound
  | InternalError
deriving DecidableEq

/-- Modelled from the spec: classification of an MCP SDK error code into the
spec's taxonomy.  No SDK code denotes NotFound, since the SDK has none. -/
def ErrorCode.specKind : ErrorCode → SpecErrKind
  | .methodNotFound => .MethodNotFound
  | .invalidParams => .InvalidParams
  | _ => .InternalError

/-- The SDK's `McpError`: an Error carrying a code and the message passed to
the constructor (`msg`). -/
structure McpError where
  code : ErrorCode
  msg : String
deriving DecidableEq

/-- The `Error.message` of an `McpError`: the SDK constructor prepends
the numeric code (`super(\x7bMCP error $\x7bcode\x7d: $\x7bmessage\x7d\x7d)`). -/
def McpError.message (e : McpError) : String :=
  "MCP error " ++ e.code.numStr ++ ": " ++ e.msg

/-! ## JSON values (what `JSON.stringify` serializes in the handler) -/

/-- JSON tree for the structured payloads the handler serializes with
`JSON.stringify`.  Object fields keep the insertion order of the source
literal; fields whose value is `undefined` are omitted by `JSON.stringify`
and are therefore simply absent from the field list. -/
inductive Json where
  | str (s : String)
  | num (n : Nat)
  | arr (xs : List Json)
  | obj (fields : List (String × Json))

/-- Look up a field of a JSON object (first match); `none` for a missing
field or a non-object. -/
def lookupField (j : Json) (k : String) : Option Json :=
  match j with
  | .obj fields => go fields
  | _ => none
where
  go : List (String × Json) → Option Json
    | [] => none
    | (k2, v) :: rest => if k2 = k then some v else go rest

/-- String-valued field of a JSON object, if present. -/
def jsonStrField (j : Json) (k : String) : Option String :=
  match lookupField j k with
  | some (.str s) => some s
  | _ => none

/-- An object field that `JSON.stringify` keeps only when the value is not
`undefined`. -/
def optField (k : String) : Option Json → List (String × Json)
  | none => []
  | some j => [(k, j)]

/-! ## Tool results (the `content` envelope) -/

/-- Text payload of a content item: a plain template string, or the
`JSON.stringify` of a structured value. -/
inductive Text where
  | plain (s : String)
  | json (j : Json)

/-- One entry of the `content` array (`\x7btype: "text", text: ...\x7d`). -/
structure ContentItem where
  type : String
  text : Text

/-- The success envelope returned by the tool handler (`\x7bcontent: [...]\x7d`). -/
structure ToolResult where
  content : List ContentItem

/-- The handler always returns a single text content item. -/
def textResult (t : Text) : ToolResult :=
  ⟨[⟨"text", t⟩]⟩

/-- JSON payload of a successful dispatch result, when it is a single
json-text item. -/
def firstJson (r : Except McpError ToolResult) : Option Json :=
  match r with
  | .ok tr =>
    match tr.content with
    | [item] =>
      match item.text with
      | .json j => some j
      | .plain _ => none
    | _ => none
  | .error _ => none

/-- Error kind (in the spec's taxonomy) of a dispatch outcome, if it is an
error. -/
def errSpecKind (r : Except McpError ToolResult) : Option SpecErrKind :=
  match r with
  | .error e => some e.code.specKind
  | .ok _ => none

/-! ## JavaScript value coercions used by the handler -/

/-- Interpolation of a possibly-undefined string into a template literal:
JavaScript renders `undefined` as the string "undefined". -/
def jsStr : Option String → String
  | some s => s
  | none => "undefined"

/-- The `||` operator on a possibly-undefined string (`x || d`): `undefined`
and the empty string are falsy. -/
def jsOrStr (x : Option String) (d : String) : String :=
  match x with
  | none => d
  | some s => if s = "" then d else s

/-- The `||` operator on a possibly-undefined number (`x || d`): `undefined`
and `0` are falsy. -/
def jsOrNat (x : Option Nat) (d : Nat) : Nat :=
  match x with
  | none => d
  | some v => if v = 0 then d else v

/-! ## Backend (AWS SDK / S3) data -/

/-- One entry of `ListBucketsCommand`'s response `Buckets`. -/
structure BucketInfo where
  name : String
  creationDate : String
deriving DecidableEq

/-- One entry of `ListObjectsV2Command`'s response `Contents`. -/
structure ObjSummary where
  key : String
  size : Nat
  lastModified : String
  etag : String
deriving DecidableEq

/-- Response of `ListObjectsV2Command` (fields are optional in the SDK). -/
structure ListObjectsOut where
  keyCount : Option Nat
  contents : Option (List ObjSummary)

/-- Response of `HeadObjectCommand` (fields are optional in the SDK). -/
structure HeadOut where
  contentLength : Option Nat
  contentType : Option String
  lastModified : Option String
  etag : Option String
  metadata : Option (List (String × String))

/-- The S3 command objects the handler constructs.  Arguments come from the
unvalidated `args` cast, so every argument may be absent (`undefined`). -/
inductive S3Command where
  | listBuckets
  | createBucket (bucket : Option String)
  | deleteBucket (bucket : Option String)
  | getBucketLocation (bucket : Option String)
  | listObjectsV2 (bucket : Option String) (keyPrefix : Option String) (maxKeys : Nat)
  | putObject (bucket : Option String) (key : Option String) (filePath : Option String)
      (contentType : Option String)
  | getObject (bucket : Option String) (key : Option String)
  | deleteObject (bucket : Option String) (key : Option String)
  | headObject (bucket : Option String) (key : Option String)
deriving DecidableEq

/-- A call the handler makes against the storage backend: `s3Client.send`
of a command, or `getSignedUrl` of a command with an expiry. -/
inductive GatewayCall where
  | send (cmd : S3Command)
  | sign (cmd : S3Command) (expiresIn : Nat)
deriving DecidableEq

/-- Abstract storage gateway: one operation per backend capability, each
returning a typed payload or failing with an error message (a thrown SDK
exception).  `pipeTo` models the local `pipeline(body, createWriteStream)`
step of download_object; it is filesystem work, not a gateway call. -/
structure Gateway where
  listBuckets : Unit → Except String (List BucketInfo)
  createBucket : Option String → Except String Unit
  deleteBucket : Option String → Except String Unit
  getBucketLocation : Option String → Except String (Option String)
  listObjectsV2 : Option String → Option String → Nat → Except String ListObjectsOut
  putObject : Option String → Option String → Option String → Option String →
      Except String Unit
  getObject : Option String → Option String → Except String (Option Unit)
  pipeTo : Option String → Except String Unit
  deleteObject : Option String → Option String → Except String Unit
  headObject : Option String → Option String → Except String HeadOut
  getSignedUrl : S3Command → Nat → Except String String

/-- An exception thrown inside the `try` block: an `McpError` (default case)
or a plain JavaScript `Error` (SDK failures, `new Error`). -/
inductive Thrown where
  | mcpError (e : McpError)
  | jsError (message : String)

/-- The `error.message` read in the catch block: both variants are
`Error` instances (`McpError` extends `Error`). -/
def thrownMessage : Thrown → String
  | .mcpError e => e.message
  | .jsError m => m

/-! ## The tool-call request and its arguments -/

/-- The argument fields the handler destructures out of `args` via type
casts.  A field a caller did not supply is `undefined`, hence `none`; no
validation happens anywhere.  `keyPrefix` embeds the source field named
prefix. -/
structure Args where
  bucket_name : Option String := none
  key : Option String := none
  file_path : Option String := none
  local_path : Option String := none
  content_type : Option String := none
  keyPrefix : Option String := none
  max_keys : Option Nat := none
  expires_in : Option Nat := none

/-- A tool call request (`request.params`): tool name plus arguments. -/
structure CallRequest where
  name : String
  args : Args

/-- Empty argument object. -/
def noArgs : Args := {}

/-! ## The switch cases of the CallToolRequestSchema handler

Each `case...` function embeds one branch of the `switch (name)` in
src/src/index.ts.  The returned pair is the branch's outcome inside the
`try` block (success envelope or thrown exception) together with the
gateway calls the branch issued. -/

/-- Dispatch outcome inside the try block, plus the gateway-call trace. -/
abbrev TryOut := Except Thrown ToolResult × List GatewayCall

/-- JSON rendering of `response.Buckets` (`JSON.stringify(response.Buckets)`). -/
def bucketsJson (bs : List BucketInfo) : Json :=
  .arr (bs.map fun b => .obj [("Name", .str b.name), ("CreationDate", .str b.creationDate)])

/-- JSON rendering of `response.Contents` in the list_objects output. -/
def contentsJson (os : List ObjSummary) : Json :=
  .arr (os.map fun o =>
    .obj [("Key", .str o.key), ("Size", .num o.size),
          ("LastModified", .str o.lastModified), ("ETag", .str o.etag)])

/-- JSON rendering of the user metadata map of a head-object response. -/
def metaJson (m : List (String × String)) : Json :=
  .obj (m.map fun p => (p.1, .str p.2))

/-- Case list_buckets (index.ts lines 262-273). -/
def caseListBuckets (gw : Gateway) : TryOut :=
  let cmd := S3Command.listBuckets
  match gw.listBuckets () with
  | .error m => (.error (.jsError m), [.send cmd])
  | .ok buckets => (.ok (textResult (.json (bucketsJson buckets))), [.send cmd])

/-- Case create_bucket (index.ts lines 275-289). -/
def caseCreateBucket (gw : Gateway) (args : Args) : TryOut :=
  let cmd := S3Command.createBucket args.bucket_name
  match gw.createBucket args.bucket_name with
  | .error m => (.error (.jsError m), [.send cmd])
  | .ok _ =>
    (.ok (textResult (.plain
      ("Bucket '" ++ jsStr args.bucket_name ++ "' created successfully"))), [.send cmd])

/-- Case delete_bucket (index.ts lines 291-305). -/
def caseDeleteBucket (gw : Gateway) (args : Args) : TryOut :=
  let cmd := S3Command.deleteBucket args.bucket_name
  match gw.deleteBucket args.bucket_name with
  | .error m => (.error (.jsError m), [.send cmd])
  | .ok _ =>
    (.ok (textResult (.plain
      ("Bucket '" ++ jsStr args.bucket_name ++ "' deleted successfully"))), [.send cmd])

/-- Case get_bucket_location (index.ts lines 307-328): the location field is
`response.LocationConstraint || "us-east-1"`. -/
def caseGetBucketLocation (gw : Gateway) (args : Args) : TryOut :=
  let cmd := S3Command.getBucketLocation args.bucket_name
  match gw.getBucketLocation args.bucket_name with
  | .error m => (.error (.jsError m), [.send cmd])
  | .ok locationConstraint =>
    (.ok (textResult (.json (.obj
      (optField "bucket" (args.bucket_name.map .str) ++
       [("location", .str (jsOrStr locationConstraint "us-east-1"))])))), [.send cmd])

/-- Case list_objects (index.ts lines 330-358): `MaxKeys: max_keys || 1000`. -/
def caseListObjects (gw : Gateway) (args : Args) : TryOut :=
  let cmd := S3Command.listObjectsV2 args.bucket_name args.keyPrefix
      (jsOrNat args.max_keys 1000)
  match gw.listObjectsV2 args.bucket_name args.keyPrefix (jsOrNat args.max_keys 1000) with
  | .error m => (.error (.jsError m), [.send cmd])
  | .ok out =>
    (.ok (textResult (.json (.obj
      (optField "bucket" (args.bucket_name.map .str) ++
       optField "count" (out.keyCount.map .num) ++
       optField "objects" (out.contents.map contentsJson))))), [.send cmd])

/-- Case upload_object (index.ts lines 360-383): the body is the (lazy) read
stream of file_path, consumed inside `s3Client.send`. -/
def caseUploadObject (gw : Gateway) (args : Args) : TryOut :=
  let cmd := S3Command.putObject args.bucket_name args.key args.file_path args.content_type
  match gw.putObject args.bucket_name args.key args.file_path args.content_type with
  | .error m => (.error (.jsError m), [.send cmd])
  | .ok _ =>
    (.ok (textResult (.plain
      ("File uploaded successfully to " ++ jsStr args.bucket_name ++ "/" ++
       jsStr args.key))), [.send cmd])

/-- Case download_object (index.ts lines 385-409): streams the body into
local_path when present, else throws `new Error("No body in response")`. -/
def caseDownloadObject (gw : Gateway) (args : Args) : TryOut :=
  let cmd := S3Command.getObject args.bucket_name args.key
  match gw.getObject args.bucket_name args.key with
  | .error m => (.error (.jsError m), [.send cmd])
  | .ok body =>
    match body with
    | some _ =>
      match gw.pipeTo args.local_path with
      | .error m => (.error (.jsError m), [.send cmd])
      | .ok _ =>
        (.ok (textResult (.plain
          ("Object downloaded successfully to " ++ jsStr args.local_path))), [.send cmd])
    | none => (.error (.jsError "No body in response"), [.send cmd])

/-- Case delete_object (index.ts lines 411-429). -/
def caseDeleteObject (gw : Gateway) (args : Args) : TryOut :=
  let cmd := S3Command.deleteObject args.bucket_name args.key
  match gw.deleteObject args.bucket_name args.key with
  | .error m => (.error (.jsError m), [.send cmd])
  | .ok _ =>
    (.ok (textResult (.plain
      ("Object " ++ jsStr args.bucket_name ++ "/" ++ jsStr args.key ++
       " deleted successfully"))), [.send cmd])

/-- Case get_object_metadata (index.ts lines 431-461). -/
def caseGetObjectMetadata (gw : Gateway) (args : Args) : TryOut :=
  let cmd := S3Command.headObject args.bucket_name args.key
  match gw.headObject args.bucket_name args.key with
  | .error m => (.error (.jsError m), [.send cmd])
  | .ok r =>
    (.ok (textResult (.json (.obj
      (optField "bucket" (args.bucket_name.map .str) ++
       optField "key" (args.key.map .str) ++
       optField "size" (r.contentLength.map .num) ++
       optField "contentType" (r.contentType.map .str) ++
       optField "lastModified" (r.lastModified.map .str) ++
       optField "etag" (r.etag.map .str) ++
       optField "metadata" (r.metadata.map metaJson))))), [.send cmd])

/-- Case generate_presigned_url (index.ts lines 463-493): the command is
always a `GetObjectCommand`, the expiry is `expires_in || 3600`, and the
result reports `expiresIn: expires_in || 3600`. -/
def caseGeneratePresignedUrl (gw : Gateway) (args : Args) : TryOut :=
  let cmd := S3Command.getObject args.bucket_name args.key
  let expiry := jsOrNat args.expires_in 3600
  match gw.getSignedUrl cmd expiry with
  | .error m => (.error (.jsError m), [.sign cmd expiry])
  | .ok url =>
    (.ok (textResult (.json (.obj
      (optField "bucket" (args.bucket_name.map .str) ++
       optField "key" (args.key.map .str) ++
       [("url", .str url), ("expiresIn", .num expiry)])))), [.sign cmd expiry])

/-- The body of the `try` block: the `switch (name)` over the tool name; the
default case throws `McpError(ErrorCode.MethodNotFound, ...)` (index.ts
lines 495-499). -/
def runTry (gw : Gateway) (req : CallRequest) : TryOut :=
  match req.name with
  | "list_buckets" => caseListBuckets gw
  | "create_bucket" => caseCreateBucket gw req.args
  | "delete_bucket" => caseDeleteBucket gw req.args
  | "get_bucket_location" => caseGetBucketLocation gw req.args
  | "list_objects" => caseListObjects gw req.args
  | "upload_object" => caseUploadObject gw req.args
  | "download_object" => caseDownloadObject gw req.args
  | "delete_object" => caseDeleteObject gw req.args
  | "get_object_metadata" => caseGetObjectMetadata gw req.args
  | "generate_presigned_url" => caseGeneratePresignedUrl gw req.args
  | other => (.error (.mcpError ⟨.methodNotFound, "Unknown tool: " ++ other⟩), [])

/-- The catch block (index.ts lines 501-505): every exception, including an
`McpError` thrown by the default case, is rewrapped into
`McpError(ErrorCode.InternalError, "Tool execution failed: " + error.message)`. -/
def wrapResult (o : TryOut) : Except McpError ToolResult × List GatewayCall :=
  match o.1 with
  | .ok v => (.ok v, o.2)
  | .error err =>
    (.error ⟨.internalError, "Tool execution failed: " ++ thrownMessage err⟩, o.2)

/-- The complete CallToolRequestSchema handler (index.ts lines 257-506):
the try-block dispatch followed by the catch-all rewrap. -/
def handleCallTool (gw : Gateway) (req : CallRequest) :
    Except McpError ToolResult × List GatewayCall :=
  wrapResult (runTry gw req)

/-! ## The ListToolsRequestSchema handler -/

/-- One property of a tool's input schema (`\x7btype, description\x7d`). -/
structure PropSpec where
  type : String
  description : String
deriving DecidableEq

/-- A tool's `inputSchema` literal: type, properties in source order, and
the `required` array (absent for list_buckets). -/
structure InputSchema where
  type : String
  properties : List (String × PropSpec)
  required : Option (List String)
deriving DecidableEq

/-- A tool descriptor as returned by the ListToolsRequestSchema handler. -/
structure ToolDescriptor where
  name : String
  description : String
  inputSchema : InputSchema
deriving DecidableEq

/-- The ListToolsRequestSchema handler (index.ts lines 70-254): a pure
function of no inputs returning the fixed literal list of ten tools. -/
def listTools (_ : Unit) : List ToolDescriptor :=
  [ { name := "list_buckets",
      description := "List all Wasabi buckets in your account",
      inputSchema := { type := "object", properties := [], required := none } },
    { name := "create_bucket",
      description := "Create a new Wasabi bucket",
      inputSchema :=
        { type := "object",
          properties := [("bucket_name", ⟨"string", "Name of the bucket to create"⟩)],
          required := some ["bucket_name"] } },
    { name := "delete_bucket",
      description := "Delete a Wasabi bucket (bucket must be empty)",
      inputSchema :=
        { type := "object",
          properties := [("bucket_name", ⟨"string", "Name of the bucket to delete"⟩)],
          required := some ["bucket_name"] } },
    { name := "get_bucket_location",
      description := "Get the region/location of a bucket",
      inputSchema :=
        { type := "object",
          properties := [("bucket_name", ⟨"string", "Name of the bucket"⟩)],
          required := some ["bucket_name"] } },
    { name := "list_objects",
      description := "List objects in a Wasabi bucket",
      inputSchema :=
        { type := "object",
          properties :=
            [("bucket_name", ⟨"string", "Name of the bucket"⟩),
             ("prefix", ⟨"string", "Optional prefix to filter objects"⟩),
             ("max_keys", ⟨"number", "Maximum number of objects to return (default: 1000)"⟩)],
          required := some ["bucket_name"] } },
    { name := "upload_object",
      description := "Upload a file to a Wasabi bucket",
      inputSchema :=
        { type := "object",
          properties :=
            [("bucket_name", ⟨"string", "Name of the bucket"⟩),
             ("key", ⟨"string", "Object key (path) in the bucket"⟩),
             ("file_path", ⟨"string", "Local file path to upload"⟩),
             ("content_type", ⟨"string", "Optional content type (MIME type)"⟩)],
          required := some ["bucket_name", "key", "file_path"] } },
    { name := "download_object",
      description := "Download an object from a Wasabi bucket",
      inputSchema :=
        { type := "object",
          properties :=
            [("bucket_name", ⟨"string", "Name of the bucket"⟩),
             ("key", ⟨"string", "Object key (path) in the bucket"⟩),
             ("local_path", ⟨"string", "Local file path to save the downloaded object"⟩)],
          required := some ["bucket_name", "key", "local_path"] } },
    { name := "delete_object",
      description := "Delete an object from a Wasabi bucket",
      inputSchema :=
        { type := "object",
          properties :=
            [("bucket_name", ⟨"string", "Name of the bucket"⟩),
             ("key", ⟨"string", "Object key (path) to delete"⟩)],
          required := some ["bucket_name", "key"] } },
    { name := "get_object_metadata",
      description := "Get metadata for an object in a Wasabi bucket",
      inputSchema :=
        { type := "object",
          properties :=
            [("bucket_name", ⟨"string", "Name of the bucket"⟩),
             ("key", ⟨"string", "Object key (path)"⟩)],
          required := some ["bucket_name", "key"] } },
    { name := "generate_presigned_url",
      description := "Generate a presigned URL for temporary access to an object",
      inputSchema :=
        { type := "object",
          properties :=
            [("bucket_name", ⟨"string", "Name of the bucket"⟩),
             ("key", ⟨"string", "Object key (path)"⟩),
             ("expires_in", ⟨"number", "URL expiration time in seconds (default: 3600)"⟩)],
          required := some ["bucket_name", "key"] } } ]

/-! ## Concrete gateways used to evaluate the handler -/

/-- A recording-friendly gateway on which every backend operation succeeds
with a fixed payload. -/
def okGw : Gateway where
  listBuckets := fun _ => .ok []
  createBucket := fun _ => .ok ()
  deleteBucket := fun _ => .ok ()
  getBucketLocation := fun _ => .ok none
  listObjectsV2 := fun _ _ _ => .ok ⟨some 0, some []⟩
  putObject := fun _ _ _ _ => .ok ()
  getObject := fun _ _ => .ok (some ())
  pipeTo := fun _ => .ok ()
  deleteObject := fun _ _ => .ok ()
  headObject := fun _ _ => .ok ⟨some 42, some "text/plain", none, none, none⟩
  getSignedUrl := fun _ _ => .ok "signed-url"

/-- A gateway where the object in question is absent at the backend: both
`headObject` and `getObject` fail with the backend's not-found error. -/
def notFoundGw : Gateway :=
  { okGw with
    headObject := fun _ _ => .error "NotFound"
    getObject := fun _ _ => .error "NotFound" }

/-! ## Session Manager (modelled from the spec)

Modelled from the spec: the Session Manager of spec section 4.4 belongs to
the HTTP-transport variant of this repository, which is not under src/
(src/ holds only the stdio entry point, where the channel itself is the
session).  The registry maps an opaque identifier to a session; the
identifier is abstracted as the creation counter value (a Nat) since
unguessability is not formalizable; freshness is what matters. -/

/-- Modelled from the spec: session liveness state. -/
inductive SessState where
  | initializing
  | active
  | terminated
deriving DecidableEq

/-- Modelled from the spec: one session, carrying its identifier; distinct
creations yield distinct identifiers, which also serve as object identity. -/
structure Sess where
  sid : Nat
  state : SessState
deriving DecidableEq

/-- Modelled from the spec: the registry of active sessions (the single
source of truth mapping identifier to session) plus the fresh-identifier
counter. -/
structure Registry where
  sessions : List (Nat × Sess)
  nextId : Nat

/-- The empty registry at process start. -/
def emptyRegistry : Registry := ⟨[], 0⟩

/-- Lookup of an identifier in the registry's association list. -/
def lookupSess : List (Nat × Sess) → Nat → Option Sess
  | [], _ => none
  | (k2, s) :: rest, k => if k2 = k then some s else lookupSess rest k

/-- Modelled from the spec: create a new session with a fresh identifier
and register it in state initializing. -/
def createNew (r : Registry) : Sess × Registry :=
  let s : Sess := ⟨r.nextId, .initializing⟩
  (s, ⟨(r.nextId, s) :: r.sessions, r.nextId + 1⟩)

/-- Modelled from the spec: `resolve(sessionId?)` returns the live session
mapped by the identifier, if any, and otherwise creates a new session with
a fresh identifier. -/
def resolve (r : Registry) (sid : Option Nat) : Sess × Registry :=
  match sid with
  | some k =>
    match lookupSess r.sessions k with
    | some s => (s, r)
    | none => createNew r
  | none => createNew r

/-- Modelled from the spec: the `initializing` to `active` transition of one
session. -/
def markActiveSess (s : Sess) : Sess :=
  if s.state = .initializing then { s with state := .active } else s

/-- Modelled from the spec: `markActive(sessionId)`. -/
def markActive (r : Registry) (k : Nat) : Registry :=
  ⟨r.sessions.map (fun p => if p.1 = k then (p.1, markActiveSess p.2) else p), r.nextId⟩

/-- Modelled from the spec: `terminate(sessionId)` removes the identifier
from the registry (a terminated identifier is not reused). -/
def terminate (r : Registry) (k : Nat) : Registry :=
  ⟨r.sessions.filter (fun p => p.1 != k), r.nextId⟩

/-- Registry states reachable from process start by Session Manager
operations. -/
inductive Reach : Registry → Prop where
  | init : Reach emptyRegistry
  | resolveStep (r : Registry) (o : Option Nat) : Reach r → Reach (resolve r o).2
  | activeStep (r : Registry) (k : Nat) : Reach r → Reach (markActive r k)
  | termStep (r : Registry) (k : Nat) : Reach r → Reach (terminate r k)

/-- Internal invariant of the registry: every entry's key is its session's
identifier, identifiers are below the freshness counter, and keys are
pairwise distinct. -/
def RegInv (r : Registry) : Prop :=
  (∀ p ∈ r.sessions, p.1 = p.2.sid ∧ p.2.sid < r.nextId) ∧
    (r.sessions.map Prod.fst).Nodup

/-! ## Theorems -/

/-- Helper: every error escaping the handler is the catch block's rewrap. -/
theorem wrapResult_error_shape (o : TryOut) (e : McpError)
    (h : (wrapResult o).1 = .error e) :
    e.code = ErrorCode.internalError ∧ ∃ m, e.msg = "Tool execution failed: " ++ m := by
  unfold wrapResult at h
  cases hr : o.1 with
  | ok v => rw [hr] at h; simp at h
  | error t =>
    rw [hr] at h
    injection h with h2
    subst h2
    exact ⟨rfl, thrownMessage t, rfl⟩

/-- Helper: the gateway-call trace of a list_objects dispatch, for any
arguments and any gateway outcome. -/
theorem caseListObjects_trace (gw : Gateway) (args : Args) :
    (wrapResult (caseListObjects gw args)).2 =
      [.send (.listObjectsV2 args.bucket_name args.keyPrefix (jsOrNat args.max_keys 1000))] := by
  simp only [caseListObjects, wrapResult]
  cases h : gw.listObjectsV2 args.bucket_name args.keyPrefix (jsOrNat args.max_keys 1000) <;>
    simp [h]

/-- Helper: the gateway-call trace of a generate_presigned_url dispatch,
for any arguments and any gateway outcome. -/
theorem casePresign_trace (gw : Gateway) (args : Args) :
    (wrapResult (caseGeneratePresignedUrl gw args)).2 =
      [.sign (.getObject args.bucket_name args.key) (jsOrNat args.expires_in 3600)] := by
  simp only [caseGeneratePresignedUrl, wrapResult]
  cases h : gw.getSignedUrl (S3Command.getObject args.bucket_name args.key)
      (jsOrNat args.expires_in 3600) <;> simp [h]

/-- C1: every failure of a tool call surfaces as a typed McpError envelope
carrying an error kind and a human-readable message; no raw exception
escapes the dispatch handler (every escaping error is the catch block's
typed rewrap, whose kind is InternalError and whose message wraps the
thrown error's message). -/
theorem dispatch_failure_is_typed_envelope (gw : Gateway) (req : CallRequest)
    (e : McpError) (h : (handleCallTool gw req).1 = .error e) :
    e.code = ErrorCode.internalError ∧ ∃ m, e.msg = "Tool execution failed: " ++ m :=
  wrapResult_error_shape (runTry gw req) e h

/-- C1 witness: the theorem applied to a concrete failing call (an unknown
tool name against the all-succeeding gateway). -/
theorem dispatch_failure_is_typed_envelope_witness :
    (⟨ErrorCode.internalError,
      "Tool execution failed: MCP error -32601: Unknown tool: no_such_tool"⟩ : McpError).code
        = ErrorCode.internalError ∧
    ∃ m, (⟨ErrorCode.internalError,
      "Tool execution failed: MCP error -32601: Unknown tool: no_such_tool"⟩ : McpError).msg
        = "Tool execution failed: " ++ m :=
  dispatch_failure_is_typed_envelope okGw ⟨"no_such_tool", noArgs⟩
    ⟨ErrorCode.internalError,
      "Tool execution failed: MCP error -32601: Unknown tool: no_such_tool"⟩ rfl

/-- C2: evaluation of the handler at the failing input.  An unrecognized
tool name issues no gateway call, but the error kind that escapes is
InternalError, not MethodNotFound: the default case throws
`McpError(ErrorCode.MethodNotFound, ...)`, and the catch-all block rewraps
it into `McpError(ErrorCode.InternalError, ...)`. -/
theorem unknown_tool_rewrapped_as_internal_error :
    handleCallTool okGw ⟨"frobnicate", noArgs⟩ =
      (.error ⟨.internalError,
        "Tool execution failed: MCP error -32601: Unknown tool: frobnicate"⟩, []) ∧
    errSpecKind (handleCallTool okGw ⟨"frobnicate", noArgs⟩).1 ≠
      some SpecErrKind.MethodNotFound :=
  ⟨rfl, by decide⟩

/-- C3 counterexample: the call create_bucket with no arguments (its
required bucket_name omitted) does not produce an InvalidParams error and
does not issue zero gateway calls: against a gateway that accepts the
request, the handler sends `CreateBucketCommand` with Bucket undefined and
even reports success. -/
theorem missing_required_param_counterexample :
    ¬ (errSpecKind (handleCallTool okGw ⟨"create_bucket", noArgs⟩).1
        = some SpecErrKind.InvalidParams ∧
       (handleCallTool okGw ⟨"create_bucket", noArgs⟩).2 = []) := by
  decide

/-- C3 amended: the handler performs no validation: a create_bucket call
omitting its required bucket_name still issues exactly one Storage Gateway
call, `CreateBucketCommand` with Bucket undefined, whatever the gateway
outcome, and never produces an InvalidParams error. -/
theorem missing_required_param_still_calls_gateway (gw : Gateway) :
    (handleCallTool gw ⟨"create_bucket", noArgs⟩).2 =
      [.send (.createBucket none)] ∧
    errSpecKind (handleCallTool gw ⟨"create_bucket", noArgs⟩).1 ≠
      some SpecErrKind.InvalidParams := by
  show (wrapResult (caseCreateBucket gw noArgs)).2 = _ ∧
    errSpecKind (wrapResult (caseCreateBucket gw noArgs)).1 ≠ _
  simp only [caseCreateBucket, wrapResult, errSpecKind]
  cases h : gw.createBucket noArgs.bucket_name <;>
    simp [h, ErrorCode.specKind] <;> rfl

/-- C4 counterexample: the tool surface is not the three consolidated tools
bucket, object, presign. -/
theorem tool_surface_not_three_tools :
    ¬ ((listTools ()).map ToolDescriptor.name = ["bucket", "object", "presign"]) := by
  decide

/-- C4 amended: the externally exposed tool surface consists of exactly ten
flat tools, and tool enumeration returns exactly these descriptors in this
order. -/
theorem tool_surface_is_ten_flat_tools :
    (listTools ()).map ToolDescriptor.name =
      ["list_buckets", "create_bucket", "delete_bucket", "get_bucket_location",
       "list_objects", "upload_object", "download_object", "delete_object",
       "get_object_metadata", "generate_presigned_url"] := by
  decide

/-- C5 counterexample: the result of a presign call that omits operation
carries no operation field at all (the handler has no operation parameter
and its result object has exactly the fields bucket, key, url, expiresIn),
so the operation field does not equal the string get. -/
theorem presign_result_has_no_operation_field :
    ¬ ((firstJson (handleCallTool okGw ⟨"generate_presigned_url",
          { bucket_name := some "b", key := some "k" }⟩).1).bind
        (fun j => jsonStrField j "operation") = some "get") := by
  decide

/-- C5 amended: presign has no operation parameter: the signed command is
always a GetObjectCommand, the result object has no operation field, and a
call omitting expires_in signs with and reports an effective expiry of 3600
seconds. -/
theorem presign_defaults (gw : Gateway) (b k u : String)
    (h : gw.getSignedUrl (.getObject (some b) (some k)) 3600 = .ok u) :
    handleCallTool gw ⟨"generate_presigned_url", { bucket_name := some b, key := some k }⟩ =
      (.ok (textResult (.json (.obj [("bucket", .str b), ("key", .str k),
        ("url", .str u), ("expiresIn", .num 3600)]))),
       [.sign (.getObject (some b) (some k)) 3600]) ∧
    jsonStrField (.obj [("bucket", .str b), ("key", .str k),
        ("url", .str u), ("expiresIn", .num 3600)]) "operation" = none := by
  refine ⟨?_, rfl⟩
  show wrapResult (caseGeneratePresignedUrl gw _) = _
  simp only [caseGeneratePresignedUrl]
  rw [show jsOrNat ({ bucket_name := some b, key := some k : Args }).expires_in 3600
        = 3600 from rfl]
  rw [h]
  rfl

/-- C5 witness: the amended theorem applied at a concrete presign call
against the all-succeeding gateway. -/
theorem presign_defaults_witness :
    (handleCallTool okGw ⟨"generate_presigned_url",
        { bucket_name := some "wb", key := some "wk" }⟩ =
      (.ok (textResult (.json (.obj [("bucket", .str "wb"), ("key", .str "wk"),
        ("url", .str "signed-url"), ("expiresIn", .num 3600)]))),
       [.sign (.getObject (some "wb") (some "wk")) 3600])) ∧
    jsonStrField (.obj [("bucket", .str "wb"), ("key", .str "wk"),
        ("url", .str "signed-url"), ("expiresIn", .num 3600)]) "operation" = none :=
  presign_defaults okGw "wb" "wk" "signed-url" rfl

/-- C6 counterexample: a metadata request for a key absent at the backend
does not surface error kind NotFound: it surfaces InternalError (the SDK
exception is rewrapped by the catch-all; the MCP error taxonomy used by the
code has no NotFound kind). -/
theorem absent_key_error_is_not_notfound :
    handleCallTool notFoundGw ⟨"get_object_metadata",
        { bucket_name := some "b", key := some "missing" }⟩ =
      (.error ⟨.internalError, "Tool execution failed: NotFound"⟩,
       [.send (.headObject (some "b") (some "missing"))]) ∧
    ¬ (errSpecKind (handleCallTool notFoundGw ⟨"get_object_metadata",
        { bucket_name := some "b", key := some "missing" }⟩).1
          = some SpecErrKind.NotFound) :=
  ⟨rfl, by decide⟩

/-- C6 amended: when the backend fails a headObject (metadata) or getObject
(download) request for an absent key, the handler fails, surfacing an
InternalError envelope whose message wraps the backend's error message. -/
theorem absent_key_surfaces_internal_error (gw : Gateway) (b k l m m2 : String)
    (h : gw.headObject (some b) (some k) = .error m)
    (h2 : gw.getObject (some b) (some k) = .error m2) :
    handleCallTool gw ⟨"get_object_metadata", { bucket_name := some b, key := some k }⟩ =
      (.error ⟨.internalError, "Tool execution failed: " ++ m⟩,
       [.send (.headObject (some b) (some k))]) ∧
    handleCallTool gw ⟨"download_object",
        { bucket_name := some b, key := some k, local_path := some l }⟩ =
      (.error ⟨.internalError, "Tool execution failed: " ++ m2⟩,
       [.send (.getObject (some b) (some k))]) := by
  constructor
  · show wrapResult (caseGetObjectMetadata gw _) = _
    unfold caseGetObjectMetadata
    rw [h]
    rfl
  · show wrapResult (caseDownloadObject gw _) = _
    unfold caseDownloadObject
    rw [h2]
    rfl

/-- C6 witness: the amended theorem applied against the gateway on which
the object is absent. -/
theorem absent_key_surfaces_internal_error_witness :
    handleCallTool notFoundGw ⟨"get_object_metadata",
        { bucket_name := some "wb", key := some "gone" }⟩ =
      (.error ⟨.internalError, "Tool execution failed: NotFound"⟩,
       [.send (.headObject (some "wb") (some "gone"))]) ∧
    handleCallTool notFoundGw ⟨"download_object",
        { bucket_name := some "wb", key := some "gone", local_path := some "/tmp/x" }⟩ =
      (.error ⟨.internalError, "Tool execution failed: NotFound"⟩,
       [.send (.getObject (some "wb") (some "gone"))]) :=
  absent_key_surfaces_internal_error notFoundGw "wb" "gone" "/tmp/x" "NotFound" "NotFound"
    rfl rfl

/-- C7: when the backend reports no explicit location constraint, the
get_bucket_location response's location field is the backend default region
us-east-1, not an empty or null value. -/
theorem bucket_location_defaults_to_us_east_1 (gw : Gateway) (b : String)
    (h : gw.getBucketLocation (some b) = .ok none) :
    handleCallTool gw ⟨"get_bucket_location", { bucket_name := some b }⟩ =
      (.ok (textResult (.json (.obj [("bucket", .str b), ("location", .str "us-east-1")]))),
       [.send (.getBucketLocation (some b))]) := by
  show wrapResult (caseGetBucketLocation gw _) = _
  unfold caseGetBucketLocation
  rw [h]
  rfl

/-- C7 witness: the theorem applied against the all-succeeding gateway,
whose getBucketLocation reports no location constraint. -/
theorem bucket_location_defaults_witness :
    handleCallTool okGw ⟨"get_bucket_location", { bucket_name := some "wb" }⟩ =
      (.ok (textResult (.json (.obj [("bucket", .str "wb"),
        ("location", .str "us-east-1")]))),
       [.send (.getBucketLocation (some "wb"))]) :=
  bucket_location_defaults_to_us_east_1 okGw "wb" rfl

/-- C8: tool enumeration is a pure constant function: any two calls to the
ListToolsRequestSchema handler within one process lifetime return
structurally equal descriptor lists. -/
theorem listTools_stable (u v : Unit) : listTools u = listTools v := rfl

/-- C10: the value 0 for a numeric optional parameter is indistinguishable
from omitting it: a list_objects call with max_keys 0 equals the call with
max_keys omitted and carries MaxKeys 1000 to the backend, and a presign
call with expires_in 0 equals the call with expires_in omitted and signs
with expiry 3600. -/
theorem zero_numeric_param_equals_omitted (gw : Gateway) (b k : String) :
    handleCallTool gw ⟨"list_objects", { bucket_name := some b, max_keys := some 0 }⟩ =
      handleCallTool gw ⟨"list_objects", { bucket_name := some b }⟩ ∧
    (handleCallTool gw ⟨"list_objects",
        { bucket_name := some b, max_keys := some 0 }⟩).2 =
      [.send (.listObjectsV2 (some b) none 1000)] ∧
    handleCallTool gw ⟨"generate_presigned_url",
        { bucket_name := some b, key := some k, expires_in := some 0 }⟩ =
      handleCallTool gw ⟨"generate_presigned_url",
        { bucket_name := some b, key := some k }⟩ ∧
    (handleCallTool gw ⟨"generate_presigned_url",
        { bucket_name := some b, key := some k, expires_in := some 0 }⟩).2 =
      [.sign (.getObject (some b) (some k)) 3600] := by
  refine ⟨rfl, ?_, rfl, ?_⟩
  · exact (caseListObjects_trace gw _).trans rfl
  · exact (casePresign_trace gw _).trans rfl

theorem lookup_filter_ne (l : List (Nat × Sess)) (k : Nat) :
    lookupSess (l.filter (fun p => p.1 != k)) k = none := by
  induction l with
  | nil => rfl
  | cons p rest ih =>
    obtain ⟨k2, s2⟩ := p
    by_cases hp : k2 = k
    · simp [List.filter_cons, hp, ih]
    · simp [List.filter_cons, hp, lookupSess, ih]

theorem lookup_mem {l : List (Nat × Sess)} {k : Nat} {s : Sess}
    (h : lookupSess l k = some s) : (k, s) ∈ l := by
  induction l with
  | nil => simp [lookupSess] at h
  | cons p rest ih =>
    obtain ⟨k2, s2⟩ := p
    rw [lookupSess] at h
    by_cases hp : k2 = k
    · rw [if_pos hp] at h
      injection h with h2
      subst hp h2
      exact List.mem_cons_self _ _
    · rw [if_neg hp] at h
      exact List.mem_cons_of_mem _ (ih h)

theorem markActiveSess_sid (s : Sess) : (markActiveSess s).sid = s.sid := by
  unfold markActiveSess
  split <;> rfl

theorem regInv_empty : RegInv emptyRegistry := by
  constructor
  · intro p hp
    simp [emptyRegistry] at hp
  · simp [emptyRegistry]

theorem regInv_createNew {r : Registry} (h : RegInv r) : RegInv (createNew r).2 := by
  obtain ⟨h1, h2⟩ := h
  constructor
  · intro p hp
    rcases List.mem_cons.1 hp with he | hm
    · subst he
      exact ⟨rfl, Nat.lt_succ_self _⟩
    · obtain ⟨hk, hlt⟩ := h1 p hm
      exact ⟨hk, Nat.lt_succ_of_lt hlt⟩
  · refine List.Nodup.cons ?_ h2
    intro hmem
    obtain ⟨p, hp, hfst⟩ := List.mem_map.1 hmem
    obtain ⟨hk, hlt⟩ := h1 p hp
    omega

theorem regInv_resolve {r : Registry} (h : RegInv r) (o : Option Nat) :
    RegInv (resolve r o).2 := by
  cases o with
  | none => exact regInv_createNew h
  | some k =>
    show RegInv (match lookupSess r.sessions k with
      | some s => (s, r)
      | none => createNew r).2
    cases hl : lookupSess r.sessions k with
    | none => exact regInv_createNew h
    | some s => exact h

theorem regInv_markActive {r : Registry} (h : RegInv r) (k : Nat) :
    RegInv (markActive r k) := by
  obtain ⟨h1, h2⟩ := h
  constructor
  · intro p hp
    obtain ⟨q, hq, hgq⟩ := List.mem_map.1 hp
    obtain ⟨hk, hlt⟩ := h1 q hq
    by_cases hqk : q.1 = k
    · rw [if_pos hqk] at hgq
      subst hgq
      simpa [markActiveSess_sid] using ⟨hk, hlt⟩
    · rw [if_neg hqk] at hgq
      subst hgq
      exact ⟨hk, hlt⟩
  · show ((r.sessions.map _).map Prod.fst).Nodup
    rw [List.map_map]
    have : (Prod.fst ∘ fun p : Nat × Sess =>
        if p.1 = k then (p.1, markActiveSess p.2) else p) = Prod.fst := by
      funext p
      by_cases hp : p.1 = k <;> simp [hp]
    rw [this]
    exact h2

theorem regInv_terminate {r : Registry} (h : RegInv r) (k : Nat) :
    RegInv (terminate r k) := by
  obtain ⟨h1, h2⟩ := h
  constructor
  · intro p hp
    exact h1 p (List.mem_of_mem_filter hp)
  · exact List.Nodup.sublist (List.Sublist.map _ (List.filter_sublist _)) h2

theorem reach_regInv {r : Registry} (h : Reach r) : RegInv r := by
  induction h with
  | init => exact regInv_empty
  | resolveStep r o _ ih => exact regInv_resolve ih o
  | activeStep r k _ ih => exact regInv_markActive ih k
  | termStep r k _ ih => exact regInv_terminate ih k

/-- C9: in every reachable registry state there is at most one session per
identifier (the registry keys are pairwise distinct); terminate removes the
identifier from the registry; and resolving with a just-terminated
identifier creates a new session whose identity differs from the
terminated session, never reviving it. -/
theorem session_registry_invariant (r : Registry) (h : Reach r) :
    (r.sessions.map Prod.fst).Nodup ∧
    (∀ k, lookupSess (terminate r k).sessions k = none) ∧
    (∀ k s, lookupSess r.sessions k = some s →
      ((resolve (terminate r k) (some k)).1).sid ≠ s.sid ∧
      (resolve (terminate r k) (some k)).1 ≠ s) := by
  obtain ⟨h1, h2⟩ := reach_regInv h
  refine ⟨h2, fun k => lookup_filter_ne _ _, ?_⟩
  intro k s hl
  obtain ⟨hk, hlt⟩ := h1 (k, s) (lookup_mem hl)
  have hlt2 : s.sid < r.nextId := hlt
  have hres : resolve (terminate r k) (some k) = createNew (terminate r k) := by
    show (match lookupSess (terminate r k).sessions k with
      | some s => (s, terminate r k)
      | none => createNew (terminate r k)) = createNew (terminate r k)
    rw [show (terminate r k).sessions = r.sessions.filter (fun p => p.1 != k) from rfl]
    rw [lookup_filter_ne]
  rw [hres]
  have hsid : ((createNew (terminate r k)).1).sid = r.nextId := rfl
  constructor
  · rw [hsid]
    omega
  · intro he
    have hc := congrArg Sess.sid he
    rw [hsid] at hc
    omega

/-- C9 witness: the theorem applied at a concrete reachable registry (one
session resolved from the empty registry). -/
theorem session_registry_invariant_witness :
    (((resolve emptyRegistry none).2.sessions.map Prod.fst).Nodup ∧
     (∀ k, lookupSess (terminate (resolve emptyRegistry none).2 k).sessions k = none) ∧
     (∀ k s, lookupSess (resolve emptyRegistry none).2.sessions k = some s →
       ((resolve (terminate (resolve emptyRegistry none).2 k) (some k)).1).sid ≠ s.sid ∧
       (resolve (terminate (resolve emptyRegistry none).2 k) (some k)).1 ≠ s)) :=
  session_registry_invariant (resolve emptyRegistry none).2
    (Reach.resolveStep emptyRegistry none Reach.init)

end Wasabi
